import Mathlib

/-!
Verification of the out-of-bounds mutation engine
(`language/bytecode_verifier/invalid_mutations/src/bounds.rs`, with the
`IndexKind` registry from `language/vm/src/lib.rs`).

The module layout (`CompiledModuleMut` tables), `kind_count`, and the
`pick_slice_idxs` utility live outside the provided sources; they are
modelled from the specification's interface descriptions (§3, §6) and from
the exact field accesses performed by `bounds.rs`.
-/

set_option maxHeartbeats 1000000

namespace Libra

/-- `IndexKind` from `language/vm/src/lib.rs`: a closed enumeration of the
table/pool kinds in a module, in declaration order. -/
inductive IndexKind where
  | ModuleHandle
  | StructHandle
  | FunctionHandle
  | StructDefinition
  | FieldDefinition
  | FunctionDefinition
  | TypeSignature
  | FunctionSignature
  | LocalsSignature
  | StringPool
  | ByteArrayPool
  | AddressPool
  | LocalPool
  | CodeDefinition
  | TypeParameter
  deriving DecidableEq, Repr

/-- `IndexKind::variants()` from `language/vm/src/lib.rs`, transcribed
exactly as the source lists it. -/
def IndexKind.variants : List IndexKind :=
  [ .ModuleHandle, .StructHandle, .FunctionHandle, .StructDefinition,
    .FieldDefinition, .FunctionDefinition, .TypeSignature, .FunctionSignature,
    .LocalsSignature, .StringPool, .AddressPool, .LocalPool, .CodeDefinition,
    .TypeParameter ]

/-- Every constructor of `IndexKind`, in declaration order (this is the
enumeration itself, used to state claims about `variants`). -/
def IndexKind.allKinds : List IndexKind :=
  [ .ModuleHandle, .StructHandle, .FunctionHandle, .StructDefinition,
    .FieldDefinition, .FunctionDefinition, .TypeSignature, .FunctionSignature,
    .LocalsSignature, .StringPool, .ByteArrayPool, .AddressPool, .LocalPool,
    .CodeDefinition, .TypeParameter ]

/-- `PointerKind` from `bounds.rs`: the cardinality of an outgoing edge. -/
inductive PointerKind where
  | One (k : IndexKind)
  | Optional (k : IndexKind)
  | Star (k : IndexKind)
  deriving DecidableEq, Repr

/-- `PointerKind::pointers_from` from `bounds.rs`, transcribed exactly. -/
def PointerKind.pointers_from : IndexKind → List PointerKind
  | .ModuleHandle => [.One .AddressPool, .One .StringPool]
  | .StructHandle => [.One .ModuleHandle, .One .StringPool]
  | .FunctionHandle => [.One .ModuleHandle, .One .StringPool, .One .FunctionSignature]
  | .StructDefinition => [.One .StructHandle, .One .FieldDefinition]
  | .FieldDefinition => [.One .StructHandle, .One .StringPool, .One .TypeSignature]
  | .FunctionDefinition => [.One .FunctionHandle, .One .LocalsSignature]
  | .TypeSignature => [.Optional .StructHandle]
  | .FunctionSignature => [.Star .StructHandle]
  | .LocalsSignature => [.Star .StructHandle]
  | .StringPool => []
  | .ByteArrayPool => []
  | .AddressPool => []
  | .LocalPool => []
  | .CodeDefinition => []
  | .TypeParameter => []

/-- `PointerKind::to_index_kind` from `bounds.rs`. -/
def PointerKind.to_index_kind : PointerKind → IndexKind
  | .One k => k
  | .Optional k => k
  | .Star k => k

/-- `VALID_POINTER_SRCS` from `bounds.rs`. -/
def VALID_POINTER_SRCS : List IndexKind :=
  [ .ModuleHandle, .StructHandle, .FunctionHandle, .StructDefinition,
    .FieldDefinition, .FunctionDefinition, .TypeSignature, .FunctionSignature,
    .LocalsSignature ]

/-- Modelled from the spec: the authoritative edge table of §4.1, written
independently of `pointers_from` so the two can be compared. -/
def spec_edgesFrom : IndexKind → List PointerKind
  | .ModuleHandle => [.One .AddressPool, .One .StringPool]
  | .StructHandle => [.One .ModuleHandle, .One .StringPool]
  | .FunctionHandle => [.One .ModuleHandle, .One .StringPool, .One .FunctionSignature]
  | .StructDefinition => [.One .StructHandle, .One .FieldDefinition]
  | .FieldDefinition => [.One .StructHandle, .One .StringPool, .One .TypeSignature]
  | .FunctionDefinition => [.One .FunctionHandle, .One .LocalsSignature]
  | .TypeSignature => [.Optional .StructHandle]
  | .FunctionSignature => [.Star .StructHandle]
  | .LocalsSignature => [.Star .StructHandle]
  | _ => []

/-! ## The module model

`CompiledModuleMut` and its entry types live in `language/vm/src/file_format.rs`,
which is not among the provided sources; they are modelled from the spec (§3
"Module": one table per kind, entries holding references by numeric position)
and from the exact fields `bounds.rs` reads and writes. Table positions are
`Nat`; the 16-bit `TableIndex` width appears as an explicit `% 65536` at the
`as TableIndex` cast sites. -/

/-- Modelled from the spec: a signature token. For this engine only the
embedded struct-handle reference matters: `SignatureTokenView::struct_handle`
observes it and `debug_set_sh_idx` overwrites it; all other token content is
opaque. -/
inductive SignatureToken where
  | Struct (sh : Nat)
  | Other (t : Nat)
  deriving DecidableEq, Repr

/-- Modelled from the spec: whether the token embeds a structural reference
(the eligible-source caches keep exactly the positions where this is `some`). -/
def SignatureToken.struct_handle : SignatureToken → Option Nat
  | .Struct sh => some sh
  | .Other _ => none

/-- Modelled from the spec: overwrite the embedded struct-handle reference of a
token (a no-op on tokens that have none; the engine only calls this on cached
positions, which do). -/
def SignatureToken.debug_set_sh_idx : SignatureToken → Nat → SignatureToken
  | .Struct _, n => .Struct n
  | .Other t, _ => .Other t

/-- Modelled from the spec: a module-handle entry with its two reference
fields (`address`, `name`), as accessed in `set_index`. -/
structure ModuleHandle where
  address : Nat
  name : Nat
  deriving DecidableEq, Repr

/-- Modelled from the spec: a struct-handle entry (`module`, `name`). -/
structure StructHandle where
  module : Nat
  name : Nat
  deriving DecidableEq, Repr

/-- Modelled from the spec: a function-handle entry (`module`, `name`,
`signature`). -/
structure FunctionHandle where
  module : Nat
  name : Nat
  signature : Nat
  deriving DecidableEq, Repr

/-- `StructFieldInformation` as matched in `set_index`: either a native struct
with no field storage, or a declared contiguous field range
`[fields, fields + field_count)`. -/
inductive StructFieldInformation where
  | Native
  | Declared (field_count : Nat) (fields : Nat)
  deriving DecidableEq, Repr

/-- Modelled from the spec: a struct-definition entry (`struct_handle`,
`field_information`). -/
structure StructDefinition where
  struct_handle : Nat
  field_information : StructFieldInformation
  deriving DecidableEq, Repr

/-- Modelled from the spec: a field-definition entry (`struct_`, `name`,
`signature`). -/
structure FieldDefinition where
  struct_ : Nat
  name : Nat
  signature : Nat
  deriving DecidableEq, Repr

/-- Modelled from the spec: the code unit of a function definition; only its
`locals` reference is touched by this engine, the bytecode body is opaque. -/
structure CodeUnit where
  locals : Nat
  code : List Nat
  deriving DecidableEq, Repr

/-- Modelled from the spec: a function-definition entry (`function`, `code`). -/
structure FunctionDefinition where
  function : Nat
  code : CodeUnit
  deriving DecidableEq, Repr

/-- Modelled from the spec: a function signature with return and argument
token lists. -/
structure FunctionSignature where
  return_types : List SignatureToken
  arg_types : List SignatureToken
  deriving DecidableEq, Repr

/-- Modelled from the spec: the mutable module, one table per kind. A type
signature is a single token; a locals signature is a token list; pool entries
are opaque. -/
structure CompiledModuleMut where
  module_handles : List ModuleHandle
  struct_handles : List StructHandle
  function_handles : List FunctionHandle
  struct_defs : List StructDefinition
  field_defs : List FieldDefinition
  function_defs : List FunctionDefinition
  type_signatures : List SignatureToken
  function_signatures : List FunctionSignature
  locals_signatures : List (List SignatureToken)
  string_pool : List Nat
  byte_array_pool : List Nat
  address_pool : List Nat
  deriving DecidableEq, Repr

/-- Modelled from the spec: `kind_count` returns the current entry count of a
kind's table (§4.3 steps 2-3). The function-local kinds have no module-level
table and are never queried by this engine. -/
def CompiledModuleMut.kind_count (m : CompiledModuleMut) : IndexKind → Nat
  | .ModuleHandle => m.module_handles.length
  | .StructHandle => m.struct_handles.length
  | .FunctionHandle => m.function_handles.length
  | .StructDefinition => m.struct_defs.length
  | .FieldDefinition => m.field_defs.length
  | .FunctionDefinition => m.function_defs.length
  | .TypeSignature => m.type_signatures.length
  | .FunctionSignature => m.function_signatures.length
  | .LocalsSignature => m.locals_signatures.length
  | .StringPool => m.string_pool.length
  | .ByteArrayPool => m.byte_array_pool.length
  | .AddressPool => m.address_pool.length
  | .LocalPool => 0
  | .CodeDefinition => 0
  | .TypeParameter => 0

/-! ## Mutations, diagnostics, caches -/

/-- `OutOfBoundsMutation` from `bounds.rs`. The proptest `src_idx` selector is
opaque to the engine (it is only handed to `pick_slice_idxs`); it is modelled
as a `Nat` seed. -/
structure OutOfBoundsMutation where
  src_kind : IndexKind
  src_idx : Nat
  dst_kind : IndexKind
  offset : Nat
  deriving DecidableEq, Repr

/-- `FunctionSignatureTokenIndex` from `bounds.rs`: a position inside a
function signature's return or argument token list. -/
inductive FunctionSignatureTokenIndex where
  | ReturnType (idx : Nat) (pos : Nat)
  | ArgType (idx : Nat) (pos : Nat)
  deriving DecidableEq, Repr

/-- The two violations synthesized by this engine
(`vm::errors::VMStaticViolation`, restricted to the variants produced here). -/
inductive VMStaticViolation where
  | IndexOutOfBounds (kind : IndexKind) (count : Nat) (idx : Nat)
  | RangeOutOfBounds (kind : IndexKind) (count : Nat) (lo : Nat) (hi : Nat)
  deriving DecidableEq, Repr

/-- `vm::errors::VerificationError`: the diagnostic, with reporting kind and
reporting index. -/
structure VerificationError where
  kind : IndexKind
  idx : Nat
  err : VMStaticViolation
  deriving DecidableEq, Repr

/-- `ApplyOutOfBoundsContext::find_struct_tokens` from `bounds.rs`. -/
def find_struct_tokens {T : Type} (tokens : List SignatureToken) (map_fn : Nat → T) : List T :=
  tokens.enum.filterMap fun p => p.2.struct_handle.map fun _ => map_fn p.1

/-- `ApplyOutOfBoundsContext::type_sig_structs` from `bounds.rs`: indices of
type signatures whose token embeds a struct handle. -/
def type_sig_structs (m : CompiledModuleMut) : List Nat :=
  m.type_signatures.enum.filterMap fun p => p.2.struct_handle.map fun _ => p.1

/-- `ApplyOutOfBoundsContext::function_sig_structs` from `bounds.rs`: all
struct-token positions of all function signatures, return tokens first, then
argument tokens. -/
def function_sig_structs (m : CompiledModuleMut) : List FunctionSignatureTokenIndex :=
  (m.function_signatures.enum.map fun p =>
    find_struct_tokens p.2.return_types fun arg_idx =>
      FunctionSignatureTokenIndex.ReturnType p.1 arg_idx).flatten
  ++ (m.function_signatures.enum.map fun p =>
    find_struct_tokens p.2.arg_types fun arg_idx =>
      FunctionSignatureTokenIndex.ArgType p.1 arg_idx).flatten

/-- `ApplyOutOfBoundsContext::locals_sig_structs` from `bounds.rs`: all
struct-token positions of all locals signatures. -/
def locals_sig_structs (m : CompiledModuleMut) : List (Nat × Nat) :=
  (m.locals_signatures.enum.map fun p =>
    find_struct_tokens p.2 fun arg_idx => (p.1, arg_idx)).flatten

/-! ## The application engine -/

/-- `ApplyOutOfBoundsContext` from `bounds.rs`. -/
structure ApplyOutOfBoundsContext where
  module : CompiledModuleMut
  mutations : Option (List OutOfBoundsMutation)
  type_sig_structs : List Nat
  function_sig_structs : List FunctionSignatureTokenIndex
  locals_sig_structs : List (Nat × Nat)

/-- `ApplyOutOfBoundsContext::new` from `bounds.rs`: takes the module and the
batch, precomputes the three eligible-source caches. -/
def ApplyOutOfBoundsContext.new (module : CompiledModuleMut)
    (mutations : List OutOfBoundsMutation) : ApplyOutOfBoundsContext :=
  { module := module
    mutations := some mutations
    type_sig_structs := Libra.type_sig_structs module
    function_sig_structs := Libra.function_sig_structs module
    locals_sig_structs := Libra.locals_sig_structs module }

/-- The engine's fatal failures: the `expect` on an absent mutation batch in
`apply`, and the `panic!` on a (source, destination) pair absent from the
pointer model in `set_index`. -/
inductive ApplyPanic where
  | missingMutations
  | invalidPair (src : IndexKind) (dst : IndexKind)
  deriving DecidableEq, Repr

/-- The `(dst_count + mutation.offset) as TableIndex` computation of
`apply_one`: `TableIndex` is 16-bit unsigned, so the cast truncates mod
`2^16`. -/
def attempted_index (dst_count offset : Nat) : Nat :=
  (dst_count + offset) % 65536

/-- `ApplyOutOfBoundsContext::set_index` from `bounds.rs`: overwrite the one
reference field named by the (source, destination) pair at `src_idx` with
`new_idx` and return the matching diagnostic (`none` for the native-struct
skip). The source panics on a pair outside the pointer model; that arm is the
`invalidPair` error here. The u16 arithmetic of the range case carries its
explicit `% 65536`. -/
def set_index (ctx : ApplyOutOfBoundsContext) (src_kind : IndexKind) (src_idx : Nat)
    (dst_kind : IndexKind) (dst_count : Nat) (new_idx : Nat) :
    Except ApplyPanic (ApplyOutOfBoundsContext × Option VerificationError) :=
  let m := ctx.module
  let err0 := VMStaticViolation.IndexOutOfBounds dst_kind dst_count new_idx
  match src_kind, dst_kind with
  | .ModuleHandle, .AddressPool =>
    let t := m.module_handles.modify (fun h => { h with address := new_idx }) src_idx
    .ok ({ ctx with module := { m with module_handles := t } }, some ⟨src_kind, src_idx, err0⟩)
  | .ModuleHandle, .StringPool =>
    let t := m.module_handles.modify (fun h => { h with name := new_idx }) src_idx
    .ok ({ ctx with module := { m with module_handles := t } }, some ⟨src_kind, src_idx, err0⟩)
  | .StructHandle, .ModuleHandle =>
    let t := m.struct_handles.modify (fun h => { h with module := new_idx }) src_idx
    .ok ({ ctx with module := { m with struct_handles := t } }, some ⟨src_kind, src_idx, err0⟩)
  | .StructHandle, .StringPool =>
    let t := m.struct_handles.modify (fun h => { h with name := new_idx }) src_idx
    .ok ({ ctx with module := { m with struct_handles := t } }, some ⟨src_kind, src_idx, err0⟩)
  | .FunctionHandle, .ModuleHandle =>
    let t := m.function_handles.modify (fun h => { h with module := new_idx }) src_idx
    .ok ({ ctx with module := { m with function_handles := t } }, some ⟨src_kind, src_idx, err0⟩)
  | .FunctionHandle, .StringPool =>
    let t := m.function_handles.modify (fun h => { h with name := new_idx }) src_idx
    .ok ({ ctx with module := { m with function_handles := t } }, some ⟨src_kind, src_idx, err0⟩)
  | .FunctionHandle, .FunctionSignature =>
    let t := m.function_handles.modify (fun h => { h with signature := new_idx }) src_idx
    .ok ({ ctx with module := { m with function_handles := t } }, some ⟨src_kind, src_idx, err0⟩)
  | .StructDefinition, .StructHandle =>
    let t := m.struct_defs.modify (fun d => { d with struct_handle := new_idx }) src_idx
    .ok ({ ctx with module := { m with struct_defs := t } }, some ⟨src_kind, src_idx, err0⟩)
  | .StructDefinition, .FieldDefinition =>
    match (m.struct_defs.getD src_idx ⟨0, .Native⟩).field_information with
    | .Native => .ok (ctx, none)
    | .Declared field_count _ =>
      let end_idx := (new_idx + 1) % 65536
      let first_new_idx := (end_idx + 65536 - field_count % 65536) % 65536
      let fi := StructFieldInformation.Declared field_count first_new_idx
      let t := m.struct_defs.modify (fun d => { d with field_information := fi }) src_idx
      let err2 := VMStaticViolation.RangeOutOfBounds dst_kind dst_count first_new_idx end_idx
      .ok ({ ctx with module := { m with struct_defs := t } }, some ⟨src_kind, src_idx, err2⟩)
  | .FieldDefinition, .StructHandle =>
    let t := m.field_defs.modify (fun d => { d with struct_ := new_idx }) src_idx
    .ok ({ ctx with module := { m with field_defs := t } }, some ⟨src_kind, src_idx, err0⟩)
  | .FieldDefinition, .StringPool =>
    let t := m.field_defs.modify (fun d => { d with name := new_idx }) src_idx
    .ok ({ ctx with module := { m with field_defs := t } }, some ⟨src_kind, src_idx, err0⟩)
  | .FieldDefinition, .TypeSignature =>
    let t := m.field_defs.modify (fun d => { d with signature := new_idx }) src_idx
    .ok ({ ctx with module := { m with field_defs := t } }, some ⟨src_kind, src_idx, err0⟩)
  | .FunctionDefinition, .FunctionHandle =>
    let t := m.function_defs.modify (fun d => { d with function := new_idx }) src_idx
    .ok ({ ctx with module := { m with function_defs := t } }, some ⟨src_kind, src_idx, err0⟩)
  | .FunctionDefinition, .LocalsSignature =>
    let t := m.function_defs.modify
      (fun d => { d with code := { d.code with locals := new_idx } }) src_idx
    .ok ({ ctx with module := { m with function_defs := t } }, some ⟨src_kind, src_idx, err0⟩)
  | .TypeSignature, .StructHandle =>
    let src_idx2 := ctx.type_sig_structs.getD src_idx 0
    let t := m.type_signatures.modify (fun tok => tok.debug_set_sh_idx new_idx) src_idx2
    .ok ({ ctx with module := { m with type_signatures := t } }, some ⟨src_kind, src_idx2, err0⟩)
  | .FunctionSignature, .StructHandle =>
    match ctx.function_sig_structs.getD src_idx (.ReturnType 0 0) with
    | .ReturnType actual_src_idx ret_idx =>
      let t := m.function_signatures.modify
        (fun fs => { fs with return_types :=
          fs.return_types.modify (fun tok => tok.debug_set_sh_idx new_idx) ret_idx })
        actual_src_idx
      .ok ({ ctx with module := { m with function_signatures := t } },
        some ⟨src_kind, actual_src_idx, err0⟩)
    | .ArgType actual_src_idx arg_idx =>
      let t := m.function_signatures.modify
        (fun fs => { fs with arg_types :=
          fs.arg_types.modify (fun tok => tok.debug_set_sh_idx new_idx) arg_idx })
        actual_src_idx
      .ok ({ ctx with module := { m with function_signatures := t } },
        some ⟨src_kind, actual_src_idx, err0⟩)
  | .LocalsSignature, .StructHandle =>
    let pr := ctx.locals_sig_structs.getD src_idx (0, 0)
    let t := m.locals_signatures.modify
      (fun sig => sig.modify (fun tok => tok.debug_set_sh_idx new_idx) pr.2) pr.1
    .ok ({ ctx with module := { m with locals_signatures := t } }, some ⟨src_kind, pr.1, err0⟩)
  | _, _ => .error (.invalidPair src_kind dst_kind)

/-- The source-population computation at the head of `apply_one`: signature
sources draw from their eligible-source cache, every other source from its
table's entry count. -/
def src_count_of (ctx : ApplyOutOfBoundsContext) (src_kind : IndexKind) : Nat :=
  match src_kind with
  | .TypeSignature => ctx.type_sig_structs.length
  | .FunctionSignature => ctx.function_sig_structs.length
  | .LocalsSignature => ctx.locals_sig_structs.length
  | k => ctx.module.kind_count k

/-- The `filter_map` fold at the tail of `apply_one`: run `set_index` over the
zipped (mutation, resolved index) list, threading the module and collecting
the diagnostics in order. -/
def apply_muts (ctx : ApplyOutOfBoundsContext) (src_kind dst_kind : IndexKind)
    (dst_count : Nat) :
    List (OutOfBoundsMutation × Nat) →
      Except ApplyPanic (ApplyOutOfBoundsContext × List VerificationError)
  | [] => .ok (ctx, [])
  | (mutation, src_idx) :: rest =>
    match set_index ctx src_kind src_idx dst_kind dst_count
        (attempted_index dst_count mutation.offset) with
    | .error e => .error e
    | .ok (ctx2, errOpt) =>
      match apply_muts ctx2 src_kind dst_kind dst_count rest with
      | .error e => .error e
      | .ok (ctx3, errs) => .ok (ctx3, errOpt.toList ++ errs)

/-- `ApplyOutOfBoundsContext::apply_one` from `bounds.rs`, parameterized by the
external `pick_slice_idxs` utility (not among the provided sources; its
contract is stated per call site in the theorems). -/
def apply_one (pick : Nat → List OutOfBoundsMutation → List Nat)
    (ctx : ApplyOutOfBoundsContext) (src_kind dst_kind : IndexKind)
    (mutations : List OutOfBoundsMutation) :
    Except ApplyPanic (ApplyOutOfBoundsContext × List VerificationError) :=
  let src_count := src_count_of ctx src_kind
  let dst_count := ctx.module.kind_count dst_kind
  let to_mutate := pick src_count mutations
  apply_muts ctx src_kind dst_kind dst_count (mutations.zip to_mutate)

/-- The ordered key set of the `BTreeMap` built in `apply`: all (source,
destination) pairs present in the batch, in the derived lexicographic order of
`IndexKind` (declaration order), each exactly once. -/
def mutation_map_keys (mutations : List OutOfBoundsMutation) :
    List (IndexKind × IndexKind) :=
  (IndexKind.allKinds.flatMap fun s => IndexKind.allKinds.map fun d => (s, d)).filter
    fun k => mutations.any fun mu => decide (mu.src_kind = k.1 ∧ mu.dst_kind = k.2)

/-- The group of a key in the `BTreeMap`: the batch's mutations with that
(source, destination) pair, in input order. -/
def mutation_group (mutations : List OutOfBoundsMutation)
    (k : IndexKind × IndexKind) : List OutOfBoundsMutation :=
  mutations.filter fun mu => decide (mu.src_kind = k.1 ∧ mu.dst_kind = k.2)

/-- The loop over the grouped map in `apply`, threading the context. -/
def apply_groups (pick : Nat → List OutOfBoundsMutation → List Nat)
    (ctx : ApplyOutOfBoundsContext) (mutations : List OutOfBoundsMutation) :
    List (IndexKind × IndexKind) →
      Except ApplyPanic (ApplyOutOfBoundsContext × List VerificationError)
  | [] => .ok (ctx, [])
  | k :: rest =>
    match apply_one pick ctx k.1 k.2 (mutation_group mutations k) with
    | .error e => .error e
    | .ok (ctx2, errs) =>
      match apply_groups pick ctx2 mutations rest with
      | .error e => .error e
      | .ok (ctx3, errs2) => .ok (ctx3, errs ++ errs2)

/-- `ApplyOutOfBoundsContext::apply` from `bounds.rs`: take the batch out of
the context (the `expect` is the `missingMutations` error), group it by
(source kind, destination kind), apply each group in key order, and return the
mutated module with the collected diagnostics. -/
def ApplyOutOfBoundsContext.apply (pick : Nat → List OutOfBoundsMutation → List Nat)
    (ctx : ApplyOutOfBoundsContext) :
    Except ApplyPanic (CompiledModuleMut × List VerificationError) :=
  match ctx.mutations with
  | none => .error .missingMutations
  | some muts =>
    let ctx0 := { ctx with mutations := none }
    match apply_groups pick ctx0 muts (mutation_map_keys muts) with
    | .error e => .error e
    | .ok (ctx2, errs) => .ok (ctx2.module, errs)

/-! ## Observations used by the statements -/

/-- The thirteen single-reference (source, destination) pairs of §4.4. -/
def single_ref_pairs : List (IndexKind × IndexKind) :=
  [ (.ModuleHandle, .AddressPool), (.ModuleHandle, .StringPool),
    (.StructHandle, .ModuleHandle), (.StructHandle, .StringPool),
    (.FunctionHandle, .ModuleHandle), (.FunctionHandle, .StringPool),
    (.FunctionHandle, .FunctionSignature),
    (.StructDefinition, .StructHandle),
    (.FieldDefinition, .StructHandle), (.FieldDefinition, .StringPool),
    (.FieldDefinition, .TypeSignature),
    (.FunctionDefinition, .FunctionHandle), (.FunctionDefinition, .LocalsSignature) ]

/-- Read back the single reference field a (source, destination) pair names:
the observation behind the spec's "the corrupted field reads back as". -/
def read_single_ref (m : CompiledModuleMut) (src_kind dst_kind : IndexKind)
    (src_idx : Nat) : Option Nat :=
  match src_kind, dst_kind with
  | .ModuleHandle, .AddressPool => (m.module_handles.get? src_idx).map (·.address)
  | .ModuleHandle, .StringPool => (m.module_handles.get? src_idx).map (·.name)
  | .StructHandle, .ModuleHandle => (m.struct_handles.get? src_idx).map (·.module)
  | .StructHandle, .StringPool => (m.struct_handles.get? src_idx).map (·.name)
  | .FunctionHandle, .ModuleHandle => (m.function_handles.get? src_idx).map (·.module)
  | .FunctionHandle, .StringPool => (m.function_handles.get? src_idx).map (·.name)
  | .FunctionHandle, .FunctionSignature =>
    (m.function_handles.get? src_idx).map (·.signature)
  | .StructDefinition, .StructHandle => (m.struct_defs.get? src_idx).map (·.struct_handle)
  | .FieldDefinition, .StructHandle => (m.field_defs.get? src_idx).map (·.struct_)
  | .FieldDefinition, .StringPool => (m.field_defs.get? src_idx).map (·.name)
  | .FieldDefinition, .TypeSignature => (m.field_defs.get? src_idx).map (·.signature)
  | .FunctionDefinition, .FunctionHandle => (m.function_defs.get? src_idx).map (·.function)
  | .FunctionDefinition, .LocalsSignature =>
    (m.function_defs.get? src_idx).map (·.code.locals)
  | _, _ => none

/-- Modelled from the spec: a concrete stand-in for the external
`pick_slice_idxs` utility that satisfies the §6 contract (N indices, pairwise
distinct and inside `[0, population)` whenever N ≤ population, deterministic).
The theorems quantify over any function meeting the contract at their call
site; this one instantiates the witnesses. -/
def pick_model (_population : Nat) (selectors : List OutOfBoundsMutation) : List Nat :=
  List.range selectors.length

/-- The source population of §4.3 step 2, as a function of the module: cache
size for the three signature sources, table entry count otherwise (the value
`apply_one` computes through `src_count_of` on a freshly built context). -/
def source_population (m : CompiledModuleMut) : IndexKind → Nat
  | .TypeSignature => (type_sig_structs m).length
  | .FunctionSignature => (function_sig_structs m).length
  | .LocalsSignature => (locals_sig_structs m).length
  | k => m.kind_count k

/-- A concrete module with one module handle and a two-entry address pool,
used to instantiate witnesses for the single-reference pairs. -/
def sample_module_single_ref : CompiledModuleMut :=
  { module_handles := [⟨0, 0⟩], struct_handles := [], function_handles := []
    struct_defs := [], field_defs := [], function_defs := []
    type_signatures := [], function_signatures := [], locals_signatures := []
    string_pool := [5], byte_array_pool := [], address_pool := [7, 8] }

/-- A concrete module with one declared-field struct of range `[1, 3)` and
three field definitions (the spec's §8 range example). -/
def sample_module_range : CompiledModuleMut :=
  { module_handles := [], struct_handles := [], function_handles := []
    struct_defs := [⟨0, .Declared 2 1⟩], field_defs := [⟨0, 0, 0⟩, ⟨0, 0, 0⟩, ⟨0, 0, 0⟩]
    function_defs := []
    type_signatures := [], function_signatures := [], locals_signatures := []
    string_pool := [], byte_array_pool := [], address_pool := [] }

/-- A concrete module whose only struct definition is native. -/
def sample_module_native : CompiledModuleMut :=
  { module_handles := [], struct_handles := [], function_handles := []
    struct_defs := [⟨0, .Native⟩], field_defs := [], function_defs := []
    type_signatures := [], function_signatures := [], locals_signatures := []
    string_pool := [], byte_array_pool := [], address_pool := [] }

/-- A concrete module with struct-bearing signatures: a type signature at
table index 1, a function-signature struct return token at entry 1 position 2
(three struct tokens module-wide), and a locals struct token at entry 1
position 1. -/
def sample_module_sigs : CompiledModuleMut :=
  { module_handles := [], struct_handles := [⟨0, 0⟩], function_handles := []
    struct_defs := [], field_defs := [], function_defs := []
    type_signatures := [.Other 0, .Struct 0]
    function_signatures :=
      [⟨[], [.Struct 0, .Struct 1]⟩, ⟨[.Other 0, .Other 0, .Struct 0], []⟩]
    locals_signatures := [[.Other 0], [.Other 0, .Struct 0]]
    string_pool := [], byte_array_pool := [], address_pool := [] }

/-- A concrete module with two module handles, for witnessing a two-mutation
group. -/
def sample_module_pair_group : CompiledModuleMut :=
  { module_handles := [⟨0, 0⟩, ⟨1, 1⟩], struct_handles := [], function_handles := []
    struct_defs := [], field_defs := [], function_defs := []
    type_signatures := [], function_signatures := [], locals_signatures := []
    string_pool := [], byte_array_pool := [], address_pool := [3] }

/-- A two-mutation batch on the (ModuleHandle, AddressPool) pair, for
witnessing collision-free group application. -/
def sample_group_mutations : List OutOfBoundsMutation :=
  [⟨.ModuleHandle, 0, .AddressPool, 0⟩, ⟨.ModuleHandle, 1, .AddressPool, 7⟩]

/-! ## Panic-shape lemmas -/

/-- `set_index` can only fail with `invalidPair`, never with the
`missingMutations` panic of `apply`. -/
lemma set_index_ne_missingMutations (ctx : ApplyOutOfBoundsContext)
    (s : IndexKind) (i : Nat) (d : IndexKind) (c n : Nat) :
    set_index ctx s i d c n ≠ Except.error ApplyPanic.missingMutations := by
  unfold set_index
  intro h
  split at h
  case h_9 =>
    dsimp only at h
    split at h <;> simp_all
  all_goals (try (dsimp only at h; split at h)) <;> simp_all

/-- The fold of `apply_one` never fails with `missingMutations`. -/
lemma apply_muts_ne_missingMutations (s d : IndexKind) (c : Nat)
    (l : List (OutOfBoundsMutation × Nat)) (ctx : ApplyOutOfBoundsContext) :
    apply_muts ctx s d c l ≠ Except.error ApplyPanic.missingMutations := by
  induction l generalizing ctx with
  | nil => simp [apply_muts]
  | cons p rest ih =>
    obtain ⟨mu, si⟩ := p
    intro hc
    unfold apply_muts at hc
    cases h1 : set_index ctx s si d c (attempted_index c mu.offset) with
    | error e =>
      simp only [h1] at hc
      injection hc with hc2
      subst hc2
      exact set_index_ne_missingMutations ctx s si d c (attempted_index c mu.offset) h1
    | ok pr =>
      obtain ⟨ctx2, errOpt⟩ := pr
      simp only [h1] at hc
      cases h2 : apply_muts ctx2 s d c rest with
      | error e =>
        simp only [h2] at hc
        injection hc with hc2
        subst hc2
        exact ih ctx2 h2
      | ok pr2 => simp [h2] at hc

/-- The group loop of `apply` never fails with `missingMutations`. -/
lemma apply_groups_ne_missingMutations (pick : Nat → List OutOfBoundsMutation → List Nat)
    (mutations : List OutOfBoundsMutation) (ks : List (IndexKind × IndexKind))
    (ctx : ApplyOutOfBoundsContext) :
    apply_groups pick ctx mutations ks ≠ Except.error ApplyPanic.missingMutations := by
  induction ks generalizing ctx with
  | nil => simp [apply_groups]
  | cons k rest ih =>
    intro hc
    unfold apply_groups at hc
    cases h1 : apply_one pick ctx k.1 k.2 (mutation_group mutations k) with
    | error e =>
      simp only [h1] at hc
      injection hc with hc2
      subst hc2
      exact apply_muts_ne_missingMutations _ _ _ _ _ h1
    | ok pr =>
      obtain ⟨ctx2, errs⟩ := pr
      simp only [h1] at hc
      cases h2 : apply_groups pick ctx2 mutations rest with
      | error e =>
        simp only [h2] at hc
        injection hc with hc2
        subst hc2
        exact ih ctx2 h2
      | ok pr2 => simp [h2] at hc

/-! ## Reduction lemmas for a single-mutation batch -/

/-- `src_count_of` only reads the module and the caches, so it agrees with
`source_population` on any context whose caches were computed from `m`. -/
lemma src_count_of_literal (m : CompiledModuleMut)
    (o : Option (List OutOfBoundsMutation)) (s : IndexKind) :
    src_count_of
      { module := m, mutations := o, type_sig_structs := type_sig_structs m,
        function_sig_structs := function_sig_structs m,
        locals_sig_structs := locals_sig_structs m } s = source_population m s := by
  cases s <;> rfl

/-- A one-mutation batch produces the one-key map `[(s, d)]`. -/
lemma mutation_map_keys_single (s d : IndexKind) (sel off : Nat) :
    mutation_map_keys [⟨s, sel, d, off⟩] = [(s, d)] := by
  cases s <;> cases d <;> rfl

/-- A one-mutation batch is its own group at its key. -/
lemma mutation_group_single (s d : IndexKind) (sel off : Nat) :
    mutation_group [⟨s, sel, d, off⟩] (s, d) = [⟨s, sel, d, off⟩] := by
  simp [mutation_group]

/-- `apply` on a one-mutation batch reduces to the single `set_index` call
with the resolved index returned by the picking function. -/
lemma apply_single_mutation (pick : Nat → List OutOfBoundsMutation → List Nat)
    (m : CompiledModuleMut) (s d : IndexKind) (sel off i : Nat)
    (hpick : pick (source_population m s) [⟨s, sel, d, off⟩] = [i]) :
    ApplyOutOfBoundsContext.apply pick (ApplyOutOfBoundsContext.new m [⟨s, sel, d, off⟩]) =
      match set_index
          { ApplyOutOfBoundsContext.new m [⟨s, sel, d, off⟩] with mutations := none }
          s i d (m.kind_count d) (attempted_index (m.kind_count d) off) with
      | .error e => .error e
      | .ok (ctx2, errOpt) => .ok (ctx2.module, errOpt.toList) := by
  unfold ApplyOutOfBoundsContext.apply
  simp only [ApplyOutOfBoundsContext.new]
  rw [mutation_map_keys_single]
  unfold apply_groups apply_one
  rw [mutation_group_single]
  dsimp only
  rw [src_count_of_literal, hpick]
  dsimp only [List.zip, List.zipWith]
  unfold apply_muts
  cases hsi : set_index
      { module := m, mutations := none, type_sig_structs := type_sig_structs m,
        function_sig_structs := function_sig_structs m,
        locals_sig_structs := locals_sig_structs m }
      s i d (m.kind_count d) (attempted_index (m.kind_count d) off) with
  | error e => simp [hsi]
  | ok pr =>
    obtain ⟨ctx2, errOpt⟩ := pr
    simp [hsi, apply_muts, apply_groups]

/-- In-range `getD` on the type-signature cache is `get`. -/
lemma tsig_getD_eq (m : CompiledModuleMut) (i : Nat)
    (hi : i < (type_sig_structs m).length) :
    (type_sig_structs m).getD i 0 = (type_sig_structs m).get ⟨i, hi⟩ := by
  rw [List.getD_eq_getElem?_getD, List.getElem?_eq_getElem hi]
  rfl

/-- In-range `getD` on the function-signature cache is `get`. -/
lemma fsig_getD_eq (m : CompiledModuleMut) (i : Nat)
    (hi : i < (function_sig_structs m).length) :
    (function_sig_structs m).getD i (.ReturnType 0 0) =
      (function_sig_structs m).get ⟨i, hi⟩ := by
  rw [List.getD_eq_getElem?_getD, List.getElem?_eq_getElem hi]
  rfl

/-- In-range `getD` on the locals-signature cache is `get`. -/
lemma lsig_getD_eq (m : CompiledModuleMut) (i : Nat)
    (hi : i < (locals_sig_structs m).length) :
    (locals_sig_structs m).getD i (0, 0) = (locals_sig_structs m).get ⟨i, hi⟩ := by
  rw [List.getD_eq_getElem?_getD, List.getElem?_eq_getElem hi]
  rfl

/-- `get?` after `modify` at the same position applies the function under
`some`. -/
lemma get?_modify_self {α : Type} (l : List α) (f : α → α) (j : Nat) (a : α)
    (h : l.get? j = some a) : (l.modify f j).get? j = some (f a) := by
  rw [List.get?_eq_getElem?, List.getElem?_modify_eq, ← List.get?_eq_getElem?, h]
  rfl

/-! ## Per-arm facts about `set_index` -/

/-- The native-struct arm: no mutation, no diagnostic. -/
lemma set_index_sdfd_native (ctx : ApplyOutOfBoundsContext) (j c n : Nat)
    (h : (ctx.module.struct_defs.getD j ⟨0, .Native⟩).field_information =
      StructFieldInformation.Native) :
    set_index ctx .StructDefinition j .FieldDefinition c n = Except.ok (ctx, none) := by
  simp only [set_index]
  rw [h]

/-- The declared-struct arm: the field range is rebuilt around the attempted
index and a range diagnostic is returned. -/
lemma set_index_sdfd_declared (ctx : ApplyOutOfBoundsContext) (j c n fc fs : Nat)
    (hfi : (ctx.module.struct_defs.getD j ⟨0, .Native⟩).field_information =
      StructFieldInformation.Declared fc fs) :
    set_index ctx .StructDefinition j .FieldDefinition c n =
      Except.ok
        ({ ctx with module :=
              { ctx.module with struct_defs :=
                  (ctx.module.struct_defs.modify
                    (fun d =>
                      { d with field_information :=
                          (StructFieldInformation.Declared fc
                            (((n + 1) % 65536 + 65536 - fc % 65536) % 65536)) })
                    j) } },
          some ⟨.StructDefinition, j,
            VMStaticViolation.RangeOutOfBounds .FieldDefinition c
              (((n + 1) % 65536 + 65536 - fc % 65536) % 65536) ((n + 1) % 65536)⟩) := by
  simp only [set_index]
  rw [hfi]

/-- Rebuilding a declared field range never turns any struct definition
native (and leaves every other entry untouched), so the skip case cannot be
created mid-group. -/
lemma modify_declared_preserves_nonnative (l : List StructDefinition) (j fc x : Nat)
    (hj : (l.getD j ⟨0, .Native⟩).field_information ≠ StructFieldInformation.Native) :
    ∀ j2, (((l.modify
          (fun d => { d with field_information := (StructFieldInformation.Declared fc x) })
          j).getD j2 ⟨0, .Native⟩).field_information = StructFieldInformation.Native ↔
      (l.getD j2 ⟨0, .Native⟩).field_information = StructFieldInformation.Native) := by
  intro j2
  rw [List.getD_eq_getElem?_getD, List.getD_eq_getElem?_getD, List.getElem?_modify]
  cases h2 : l[j2]? with
  | none => simp
  | some a =>
    simp only [Option.map_some, Option.getD_some]
    by_cases hj2 : j = j2
    · subst hj2
      have ha : l.getD j ⟨0, .Native⟩ = a := by
        rw [List.getD_eq_getElem?_getD, h2]
        rfl
      rw [ha] at hj
      simp only [if_pos rfl]
      constructor
      · intro hcon
        exact absurd hcon (by simp)
      · intro hcon
        exact absurd hcon hj
    · simp [hj2]

/-- On every edge of the pointer model except the range-valued one,
`set_index` succeeds and returns a diagnostic. -/
lemma set_index_ok_of_edge (ctx : ApplyOutOfBoundsContext) (s d : IndexKind)
    (hvalid : d ∈ (PointerKind.pointers_from s).map PointerKind.to_index_kind)
    (hnot : ¬(s = IndexKind.StructDefinition ∧ d = IndexKind.FieldDefinition))
    (j c n : Nat) :
    ∃ ctx2 e, set_index ctx s j d c n = Except.ok (ctx2, some e) := by
  cases s <;>
    simp only [PointerKind.pointers_from, PointerKind.to_index_kind, List.map_cons,
      List.map_nil, List.mem_cons, List.not_mem_nil, or_false] at hvalid
  case StructDefinition =>
    rcases hvalid with rfl | rfl
    · exact ⟨_, _, rfl⟩
    · exact absurd ⟨rfl, rfl⟩ hnot
  case FunctionSignature =>
    subst hvalid
    simp only [set_index]
    cases h : ctx.function_sig_structs.getD j (.ReturnType 0 0) with
    | ReturnType a b => exact ⟨_, _, rfl⟩
    | ArgType a b => exact ⟨_, _, rfl⟩
  all_goals first
    | (rcases hvalid with rfl | rfl | rfl <;> exact ⟨_, _, rfl⟩)
    | (rcases hvalid with rfl | rfl <;> exact ⟨_, _, rfl⟩)
    | (subst hvalid; exact ⟨_, _, rfl⟩)
    | exact absurd hvalid (by simp)

/-- The `apply_one` fold succeeds on any valid edge and yields one diagnostic
per mutation, provided the resolved positions avoid native structs when the
edge is the range-valued one. -/
lemma apply_muts_ok_count (s d : IndexKind)
    (hvalid : d ∈ (PointerKind.pointers_from s).map PointerKind.to_index_kind) (c : Nat) :
    ∀ (l : List (OutOfBoundsMutation × Nat)) (ctx : ApplyOutOfBoundsContext),
      (s = IndexKind.StructDefinition → d = IndexKind.FieldDefinition →
        ∀ p ∈ l, (ctx.module.struct_defs.getD p.2 ⟨0, .Native⟩).field_information ≠
          StructFieldInformation.Native) →
      ∃ ctx2 errs, apply_muts ctx s d c l = Except.ok (ctx2, errs) ∧
        errs.length = l.length := by
  intro l
  induction l with
  | nil => exact fun ctx _ => ⟨ctx, [], rfl, rfl⟩
  | cons p rest ih =>
    intro ctx hskip
    obtain ⟨mu, j⟩ := p
    by_cases hsd : s = IndexKind.StructDefinition ∧ d = IndexKind.FieldDefinition
    · obtain ⟨rfl, rfl⟩ := hsd
      have hj := hskip rfl rfl (mu, j) (List.mem_cons_self _ _)
      cases hfi : (ctx.module.struct_defs.getD j ⟨0, .Native⟩).field_information with
      | Native => exact absurd hfi hj
      | Declared fc fs =>
        have hset := set_index_sdfd_declared ctx j c (attempted_index c mu.offset) fc fs hfi
        unfold apply_muts
        rw [hset]
        dsimp only
        have hskip2 : IndexKind.StructDefinition = IndexKind.StructDefinition →
            IndexKind.FieldDefinition = IndexKind.FieldDefinition →
            ∀ p2 ∈ rest,
              (({ ctx with module :=
                    { ctx.module with struct_defs :=
                        (ctx.module.struct_defs.modify
                          (fun d2 =>
                            { d2 with field_information :=
                                (StructFieldInformation.Declared fc
                                  (((attempted_index c mu.offset + 1) % 65536 + 65536 -
                                    fc % 65536) % 65536)) })
                          j) } } :
                  ApplyOutOfBoundsContext).module.struct_defs.getD p2.2
                    ⟨0, .Native⟩).field_information ≠
                StructFieldInformation.Native := by
          intro _ _ p2 hp2 hnat
          have hiff := modify_declared_preserves_nonnative ctx.module.struct_defs j fc
            (((attempted_index c mu.offset + 1) % 65536 + 65536 - fc % 65536) % 65536)
            (by rw [hfi]; simp) p2.2
          exact hskip rfl rfl p2 (List.mem_cons_of_mem _ hp2) (hiff.mp hnat)
        obtain ⟨ctx3, errs, hrest, hlen⟩ := ih _ hskip2
        rw [hrest]
        exact ⟨ctx3, _, rfl, by simp [hlen]⟩
    · obtain ⟨ctx2, e, hset⟩ :=
        set_index_ok_of_edge ctx s d hvalid hsd j c (attempted_index c mu.offset)
      unfold apply_muts
      rw [hset]
      dsimp only
      have hskip2 : s = IndexKind.StructDefinition → d = IndexKind.FieldDefinition →
          ∀ p2 ∈ rest,
            (ctx2.module.struct_defs.getD p2.2 ⟨0, .Native⟩).field_information ≠
              StructFieldInformation.Native := fun h1 h2 => absurd ⟨h1, h2⟩ hsd
      obtain ⟨ctx3, errs, hrest, hlen⟩ := ih ctx2 hskip2
      rw [hrest]
      exact ⟨ctx3, _, rfl, by simp [hlen]⟩

/-! ## Claims about the registry and the pointer model -/

/-- C6: `pointers_from` is a total function over `IndexKind`; its edge list is
non-empty exactly for the nine kinds of `VALID_POINTER_SRCS`, and it agrees
with the spec's authoritative §4.1 edge table on every kind. -/
theorem C6_pointers_from_nonempty_iff_valid_source :
    ∀ k : IndexKind,
      (PointerKind.pointers_from k ≠ [] ↔ k ∈ VALID_POINTER_SRCS) ∧
      PointerKind.pointers_from k = spec_edgesFrom k := by
  intro k
  cases k <;> exact ⟨by decide, rfl⟩

/-- C7: refuted as stated. `IndexKind.variants` omits `ByteArrayPool`: it
lists fourteen kinds, every kind of the enumeration except `ByteArrayPool`,
so the exhaustive edge-list check silently skips that kind. -/
theorem C7_variants_omit_ByteArrayPool :
    IndexKind.ByteArrayPool ∉ IndexKind.variants ∧
    IndexKind.variants.length = 14 ∧
    ∀ k : IndexKind, k ∈ IndexKind.variants ∨ k = IndexKind.ByteArrayPool := by
  refine ⟨by decide, rfl, ?_⟩
  intro k
  cases k <;> decide

/-! ## Claims about `apply` -/

/-- C9: applying an empty mutation batch returns the module unchanged and an
empty diagnostic list, for every module and every index-picking function. -/
theorem C9_empty_batch_identity (pick : Nat → List OutOfBoundsMutation → List Nat)
    (m : CompiledModuleMut) :
    ApplyOutOfBoundsContext.apply pick (ApplyOutOfBoundsContext.new m []) =
      Except.ok (m, []) :=
  rfl

/-- C10: an engine built by `new` always holds a present mutation batch, and
`apply` on such an engine can never hit the `expect` on an absent batch: it
never returns the `missingMutations` panic. (That a consumed engine cannot be
re-run at all is enforced by Rust's move semantics, outside the embedding.) -/
theorem C10_new_engine_never_missing_mutations
    (pick : Nat → List OutOfBoundsMutation → List Nat) (m : CompiledModuleMut)
    (muts : List OutOfBoundsMutation) :
    (ApplyOutOfBoundsContext.new m muts).mutations = some muts ∧
    ApplyOutOfBoundsContext.apply pick (ApplyOutOfBoundsContext.new m muts) ≠
      Except.error ApplyPanic.missingMutations := by
  refine ⟨rfl, ?_⟩
  unfold ApplyOutOfBoundsContext.apply
  simp only [ApplyOutOfBoundsContext.new]
  cases h1 : apply_groups pick
      { module := m, mutations := none,
        type_sig_structs := Libra.type_sig_structs m,
        function_sig_structs := Libra.function_sig_structs m,
        locals_sig_structs := Libra.locals_sig_structs m }
      muts (mutation_map_keys muts) with
  | error e =>
    simp only [h1]
    intro hc
    injection hc with hc2
    subst hc2
    exact apply_groups_ne_missingMutations _ _ _ _ h1
  | ok pr => simp [h1]


/-- C1: for every single-reference (source, destination) pair, a one-mutation
batch with resolved source index `i` (in range, per the `pick_slice_idxs`
contract at this call site) yields exactly one diagnostic
`IndexOutOfBounds(d, D, D + off)` reported at `(s, i)`, and the corrupted
field reads back as `D + off`, where `D` is the destination count (the
arithmetic is exact under the spec's no-overflow precondition). -/
theorem C1_single_ref_mutation (pick : Nat → List OutOfBoundsMutation → List Nat)
    (m : CompiledModuleMut) (s d : IndexKind) (sel off i : Nat)
    (hpair : (s, d) ∈ single_ref_pairs)
    (hpick : pick (source_population m s) [⟨s, sel, d, off⟩] = [i])
    (hi : i < source_population m s)
    (hno : m.kind_count d + off < 65536) :
    ∃ m2 : CompiledModuleMut,
      ApplyOutOfBoundsContext.apply pick (ApplyOutOfBoundsContext.new m [⟨s, sel, d, off⟩]) =
        Except.ok (m2,
          [⟨s, i, .IndexOutOfBounds d (m.kind_count d) (m.kind_count d + off)⟩]) ∧
      read_single_ref m2 s d i = some (m.kind_count d + off) := by
  have hatt : attempted_index (m.kind_count d) off = m.kind_count d + off :=
    Nat.mod_eq_of_lt hno
  rw [apply_single_mutation pick m s d sel off i hpick, hatt]
  fin_cases hpair
  all_goals refine ⟨_, rfl, ?_⟩
  all_goals
    simp [read_single_ref, List.get?_eq_getElem?, List.getElem?_modify_eq,
      List.getElem?_eq_getElem hi, ApplyOutOfBoundsContext.new]

/-- Witness for C1 at the (ModuleHandle, AddressPool) pair on a concrete
module with destination count 2 and offset 5. -/
theorem C1_single_ref_mutation_witness :
    (IndexKind.ModuleHandle, IndexKind.AddressPool) ∈ single_ref_pairs ∧
    0 < source_population sample_module_single_ref .ModuleHandle ∧
    ∃ m2 : CompiledModuleMut,
      ApplyOutOfBoundsContext.apply pick_model
          (ApplyOutOfBoundsContext.new sample_module_single_ref
            [⟨.ModuleHandle, 0, .AddressPool, 5⟩]) =
        Except.ok (m2,
          [⟨.ModuleHandle, 0, .IndexOutOfBounds .AddressPool
            (sample_module_single_ref.kind_count .AddressPool)
            (sample_module_single_ref.kind_count .AddressPool + 5)⟩]) ∧
      read_single_ref m2 .ModuleHandle .AddressPool 0 =
        some (sample_module_single_ref.kind_count .AddressPool + 5) :=
  ⟨by decide, by decide,
    C1_single_ref_mutation pick_model sample_module_single_ref .ModuleHandle .AddressPool
      0 5 0 (by decide) rfl (by decide) (by decide)⟩

/-- C2: a StructDefinition→FieldDefinition mutation on a struct with declared
fields of count `fc` rebuilds the range as `end = attempted + 1`,
`start = end - fc` (count unchanged), so the new end strictly exceeds the
destination count, and reports `RangeOutOfBounds(FieldDefinition, D, start,
end)` at `(StructDefinition, i)`. -/
theorem C2_range_mutation (pick : Nat → List OutOfBoundsMutation → List Nat)
    (m : CompiledModuleMut) (sel off i fc fstart : Nat)
    (hpick : pick (source_population m .StructDefinition)
        [⟨.StructDefinition, sel, .FieldDefinition, off⟩] = [i])
    (hfi : (m.struct_defs.getD i ⟨0, .Native⟩).field_information =
        StructFieldInformation.Declared fc fstart)
    (hfc : fc ≤ m.field_defs.length)
    (hno : m.field_defs.length + off + 1 ≤ 65535) :
    ApplyOutOfBoundsContext.apply pick
        (ApplyOutOfBoundsContext.new m [⟨.StructDefinition, sel, .FieldDefinition, off⟩]) =
      Except.ok
        ({ m with struct_defs :=
              (m.struct_defs.modify
                (fun sd =>
                  { sd with field_information :=
                      (StructFieldInformation.Declared fc
                        (m.field_defs.length + off + 1 - fc)) })
                i) },
          [⟨.StructDefinition, i, VMStaticViolation.RangeOutOfBounds .FieldDefinition
            m.field_defs.length (m.field_defs.length + off + 1 - fc)
            (m.field_defs.length + off + 1)⟩]) ∧
    m.field_defs.length < m.field_defs.length + off + 1 := by
  refine ⟨?_, by omega⟩
  rw [apply_single_mutation pick m _ _ sel off i hpick]
  simp only [set_index, ApplyOutOfBoundsContext.new, attempted_index,
    CompiledModuleMut.kind_count]
  rw [hfi]
  dsimp only
  have e1 : ((m.field_defs.length + off) % 65536 + 1) % 65536 =
      m.field_defs.length + off + 1 := by omega
  rw [e1]
  have e2 : (m.field_defs.length + off + 1 + 65536 - fc % 65536) % 65536 =
      m.field_defs.length + off + 1 - fc := by omega
  rw [e2]
  rfl

/-- Witness for C2 at the spec's §8 example: original range `[1, 3)` (count
2), destination count 3, offset 0; new range `[2, 4)` and diagnostic
`RangeOutOfBounds(FieldDefinition, 3, 2, 4)`. -/
theorem C2_range_mutation_witness :
    ApplyOutOfBoundsContext.apply pick_model
        (ApplyOutOfBoundsContext.new sample_module_range
          [⟨.StructDefinition, 0, .FieldDefinition, 0⟩]) =
      Except.ok
        ({ sample_module_range with struct_defs := [⟨0, .Declared 2 2⟩] },
          [⟨.StructDefinition, 0,
            VMStaticViolation.RangeOutOfBounds .FieldDefinition 3 2 4⟩]) ∧
    sample_module_range.field_defs.length <
      sample_module_range.field_defs.length + 0 + 1 :=
  C2_range_mutation pick_model sample_module_range 0 0 0 2 1 rfl rfl
    (by decide) (by decide)

/-- C3: for the three embedded-reference pairs the concrete source index is
resolved through the eligible-source cache; only the embedded structural
reference at the cached (entry, position) is overwritten, and the diagnostic
reports the signature-table entry index that owns the token, not the cache
position. -/
theorem C3_embedded_reference_mutation :
    (∀ (pick : Nat → List OutOfBoundsMutation → List Nat) (m : CompiledModuleMut)
        (sel off i : Nat)
        (hpick : pick (source_population m .TypeSignature)
            [⟨.TypeSignature, sel, .StructHandle, off⟩] = [i])
        (hi : i < (type_sig_structs m).length)
        (hno : m.struct_handles.length + off < 65536),
      ApplyOutOfBoundsContext.apply pick
          (ApplyOutOfBoundsContext.new m [⟨.TypeSignature, sel, .StructHandle, off⟩]) =
        Except.ok
          ({ m with type_signatures :=
                (m.type_signatures.modify
                  (fun tok => tok.debug_set_sh_idx (m.struct_handles.length + off))
                  ((type_sig_structs m).get ⟨i, hi⟩)) },
            [⟨.TypeSignature, (type_sig_structs m).get ⟨i, hi⟩,
              VMStaticViolation.IndexOutOfBounds .StructHandle m.struct_handles.length
                (m.struct_handles.length + off)⟩])) ∧
    (∀ (pick : Nat → List OutOfBoundsMutation → List Nat) (m : CompiledModuleMut)
        (sel off i j p : Nat)
        (hpick : pick (source_population m .FunctionSignature)
            [⟨.FunctionSignature, sel, .StructHandle, off⟩] = [i])
        (hi : i < (function_sig_structs m).length)
        (hno : m.struct_handles.length + off < 65536),
      ((function_sig_structs m).get ⟨i, hi⟩ = .ReturnType j p →
        ApplyOutOfBoundsContext.apply pick
            (ApplyOutOfBoundsContext.new m [⟨.FunctionSignature, sel, .StructHandle, off⟩]) =
          Except.ok
            ({ m with function_signatures :=
                  (m.function_signatures.modify
                    (fun fs =>
                      { fs with return_types :=
                          (fs.return_types.modify
                            (fun tok => tok.debug_set_sh_idx (m.struct_handles.length + off))
                            p) })
                    j) },
              [⟨.FunctionSignature, j,
                VMStaticViolation.IndexOutOfBounds .StructHandle m.struct_handles.length
                  (m.struct_handles.length + off)⟩])) ∧
      ((function_sig_structs m).get ⟨i, hi⟩ = .ArgType j p →
        ApplyOutOfBoundsContext.apply pick
            (ApplyOutOfBoundsContext.new m [⟨.FunctionSignature, sel, .StructHandle, off⟩]) =
          Except.ok
            ({ m with function_signatures :=
                  (m.function_signatures.modify
                    (fun fs =>
                      { fs with arg_types :=
                          (fs.arg_types.modify
                            (fun tok => tok.debug_set_sh_idx (m.struct_handles.length + off))
                            p) })
                    j) },
              [⟨.FunctionSignature, j,
                VMStaticViolation.IndexOutOfBounds .StructHandle m.struct_handles.length
                  (m.struct_handles.length + off)⟩]))) ∧
    (∀ (pick : Nat → List OutOfBoundsMutation → List Nat) (m : CompiledModuleMut)
        (sel off i : Nat)
        (hpick : pick (source_population m .LocalsSignature)
            [⟨.LocalsSignature, sel, .StructHandle, off⟩] = [i])
        (hi : i < (locals_sig_structs m).length)
        (hno : m.struct_handles.length + off < 65536),
      ApplyOutOfBoundsContext.apply pick
          (ApplyOutOfBoundsContext.new m [⟨.LocalsSignature, sel, .StructHandle, off⟩]) =
        Except.ok
          ({ m with locals_signatures :=
                (m.locals_signatures.modify
                  (fun sig =>
                    (sig.modify
                      (fun tok => tok.debug_set_sh_idx (m.struct_handles.length + off))
                      ((locals_sig_structs m).get ⟨i, hi⟩).2))
                  ((locals_sig_structs m).get ⟨i, hi⟩).1) },
            [⟨.LocalsSignature, ((locals_sig_structs m).get ⟨i, hi⟩).1,
              VMStaticViolation.IndexOutOfBounds .StructHandle m.struct_handles.length
                (m.struct_handles.length + off)⟩])) := by
  refine ⟨?_, ?_, ?_⟩
  · intro pick m sel off i hpick hi hno
    have hatt : attempted_index (m.kind_count .StructHandle) off =
        m.struct_handles.length + off := Nat.mod_eq_of_lt hno
    rw [apply_single_mutation pick m _ _ sel off i hpick, hatt]
    simp only [set_index, ApplyOutOfBoundsContext.new]
    rw [tsig_getD_eq m i hi]
    rfl
  · intro pick m sel off i j p hpick hi hno
    have hatt : attempted_index (m.kind_count .StructHandle) off =
        m.struct_handles.length + off := Nat.mod_eq_of_lt hno
    constructor
    all_goals intro heq
    all_goals rw [apply_single_mutation pick m _ _ sel off i hpick, hatt]
    all_goals simp only [set_index, ApplyOutOfBoundsContext.new]
    all_goals rw [fsig_getD_eq m i hi, heq]
    all_goals rfl
  · intro pick m sel off i hpick hi hno
    have hatt : attempted_index (m.kind_count .StructHandle) off =
        m.struct_handles.length + off := Nat.mod_eq_of_lt hno
    rw [apply_single_mutation pick m _ _ sel off i hpick, hatt]
    simp only [set_index, ApplyOutOfBoundsContext.new]
    rw [lsig_getD_eq m i hi]
    rfl

/-- Witness for C3 on a concrete module: in each of the three cases the
diagnostic reports the signature-table entry index 1, not the flattened cache
position 0 that was resolved. -/
theorem C3_embedded_reference_mutation_witness :
    (type_sig_structs sample_module_sigs).length = 1 ∧
    (function_sig_structs sample_module_sigs).length = 3 ∧
    (locals_sig_structs sample_module_sigs).length = 1 ∧
    ApplyOutOfBoundsContext.apply pick_model
        (ApplyOutOfBoundsContext.new sample_module_sigs
          [⟨.TypeSignature, 0, .StructHandle, 3⟩]) =
      Except.ok
        ({ sample_module_sigs with type_signatures := [.Other 0, .Struct 4] },
          [⟨.TypeSignature, 1,
            VMStaticViolation.IndexOutOfBounds .StructHandle 1 4⟩]) ∧
    ApplyOutOfBoundsContext.apply pick_model
        (ApplyOutOfBoundsContext.new sample_module_sigs
          [⟨.FunctionSignature, 0, .StructHandle, 3⟩]) =
      Except.ok
        ({ sample_module_sigs with function_signatures :=
              [⟨[], [.Struct 0, .Struct 1]⟩, ⟨[.Other 0, .Other 0, .Struct 4], []⟩] },
          [⟨.FunctionSignature, 1,
            VMStaticViolation.IndexOutOfBounds .StructHandle 1 4⟩]) ∧
    ApplyOutOfBoundsContext.apply pick_model
        (ApplyOutOfBoundsContext.new sample_module_sigs
          [⟨.LocalsSignature, 0, .StructHandle, 3⟩]) =
      Except.ok
        ({ sample_module_sigs with locals_signatures :=
              [[.Other 0], [.Other 0, .Struct 4]] },
          [⟨.LocalsSignature, 1,
            VMStaticViolation.IndexOutOfBounds .StructHandle 1 4⟩]) :=
  ⟨by decide, by decide, by decide,
    C3_embedded_reference_mutation.1 pick_model sample_module_sigs 0 3 0 rfl
      (by decide) (by decide),
    (C3_embedded_reference_mutation.2.1 pick_model sample_module_sigs 0 3 0 1 2 rfl
      (by decide) (by decide)).1 rfl,
    C3_embedded_reference_mutation.2.2 pick_model sample_module_sigs 0 3 0 rfl
      (by decide) (by decide)⟩

/-- C4: a group of K mutations on one valid (source, destination) pair, with
K at most the source population and the picking function meeting the §6
contract at this call site, resolves pairwise-distinct in-range source
indices and produces exactly K diagnostics when no resolved index hits the
native-struct skip case. -/
theorem C4_group_distinct_and_count (pick : Nat → List OutOfBoundsMutation → List Nat)
    (ctx : ApplyOutOfBoundsContext) (s d : IndexKind) (muts : List OutOfBoundsMutation)
    (hvalid : d ∈ (PointerKind.pointers_from s).map PointerKind.to_index_kind)
    (hK : muts.length ≤ src_count_of ctx s)
    (hlen : (pick (src_count_of ctx s) muts).length = muts.length)
    (hbound : ∀ j ∈ pick (src_count_of ctx s) muts, j < src_count_of ctx s)
    (hdist : (pick (src_count_of ctx s) muts).Nodup)
    (hskip : s = IndexKind.StructDefinition → d = IndexKind.FieldDefinition →
      ∀ j ∈ pick (src_count_of ctx s) muts,
        (ctx.module.struct_defs.getD j ⟨0, .Native⟩).field_information ≠
          StructFieldInformation.Native) :
    ∃ ctx2 errs, apply_one pick ctx s d muts = Except.ok (ctx2, errs) ∧
      errs.length = muts.length ∧
      (pick (src_count_of ctx s) muts).Nodup ∧
      ∀ j ∈ pick (src_count_of ctx s) muts, j < src_count_of ctx s := by
  have hz : (muts.zip (pick (src_count_of ctx s) muts)).length = muts.length := by
    rw [List.length_zip, hlen, Nat.min_self]
  have hskip2 : s = IndexKind.StructDefinition → d = IndexKind.FieldDefinition →
      ∀ p ∈ muts.zip (pick (src_count_of ctx s) muts),
        (ctx.module.struct_defs.getD p.2 ⟨0, .Native⟩).field_information ≠
          StructFieldInformation.Native := by
    intro h1 h2 p hp
    exact hskip h1 h2 p.2 (List.of_mem_zip hp).2
  obtain ⟨ctx2, errs, happ, hlen2⟩ :=
    apply_muts_ok_count s d hvalid (ctx.module.kind_count d)
      (muts.zip (pick (src_count_of ctx s) muts)) ctx hskip2
  refine ⟨ctx2, errs, ?_, by rw [hlen2, hz], hdist, hbound⟩
  unfold apply_one
  dsimp only
  exact happ

/-- Witness for C4: two mutations on (ModuleHandle, AddressPool) over a
two-handle module resolve to the distinct indices 0 and 1 and produce two
diagnostics. -/
theorem C4_group_distinct_and_count_witness :
    ∃ ctx2 errs,
      apply_one pick_model
          (ApplyOutOfBoundsContext.new sample_module_pair_group sample_group_mutations)
          .ModuleHandle .AddressPool sample_group_mutations = Except.ok (ctx2, errs) ∧
      errs.length = sample_group_mutations.length ∧
      (pick_model
        (src_count_of
          (ApplyOutOfBoundsContext.new sample_module_pair_group sample_group_mutations)
          .ModuleHandle)
        sample_group_mutations).Nodup ∧
      ∀ j ∈ pick_model
          (src_count_of
            (ApplyOutOfBoundsContext.new sample_module_pair_group sample_group_mutations)
            .ModuleHandle)
          sample_group_mutations,
        j < src_count_of
          (ApplyOutOfBoundsContext.new sample_module_pair_group sample_group_mutations)
          .ModuleHandle :=
  C4_group_distinct_and_count pick_model
    (ApplyOutOfBoundsContext.new sample_module_pair_group sample_group_mutations)
    .ModuleHandle .AddressPool sample_group_mutations (by decide) (by decide) rfl
    (by decide) (by decide) (fun h => nomatch h)

/-- C5: a StructDefinition→FieldDefinition mutation resolved to a native
struct is silently skipped: `apply` succeeds with zero diagnostics (fewer
than the batch size) and the module, field storage included, is returned
unchanged. -/
theorem C5_native_struct_skip (pick : Nat → List OutOfBoundsMutation → List Nat)
    (m : CompiledModuleMut) (sel off i : Nat)
    (hpick : pick (source_population m .StructDefinition)
        [⟨.StructDefinition, sel, .FieldDefinition, off⟩] = [i])
    (hnat : (m.struct_defs.getD i ⟨0, .Native⟩).field_information =
        StructFieldInformation.Native) :
    ApplyOutOfBoundsContext.apply pick
        (ApplyOutOfBoundsContext.new m [⟨.StructDefinition, sel, .FieldDefinition, off⟩]) =
      Except.ok (m, []) := by
  rw [apply_single_mutation pick m _ _ sel off i hpick]
  simp only [set_index, ApplyOutOfBoundsContext.new]
  rw [hnat]
  rfl

/-- Witness for C5 on a module whose only struct definition is native. -/
theorem C5_native_struct_skip_witness :
    (sample_module_native.struct_defs.getD 0 ⟨0, .Native⟩).field_information =
      StructFieldInformation.Native ∧
    ApplyOutOfBoundsContext.apply pick_model
        (ApplyOutOfBoundsContext.new sample_module_native
          [⟨.StructDefinition, 0, .FieldDefinition, 4⟩]) =
      Except.ok (sample_module_native, []) :=
  ⟨rfl, C5_native_struct_skip pick_model sample_module_native 0 4 0 rfl rfl⟩

/-- C8: for every applied mutation that writes and reports an attempted
index - the thirteen single-reference pairs and the three embedded-reference
pairs - the value is computed exactly: under the explicit precondition that
`destinationCount + offset` fits the 16-bit table-index width, the truncating
cast is the identity, the value is at least the destination count, `set_index`
writes it verbatim into the named field (or the cached embedded token) and
reports it verbatim as the `IndexOutOfBounds` attempted index. -/
theorem C8_exact_out_of_bounds_value :
    (∀ (dst_count off : Nat), dst_count + off ≤ 65535 →
      attempted_index dst_count off = dst_count + off ∧
      dst_count ≤ attempted_index dst_count off) ∧
    (∀ (ctx : ApplyOutOfBoundsContext) (s d : IndexKind) (i off : Nat)
        (hpair : (s, d) ∈ single_ref_pairs)
        (hno : ctx.module.kind_count d + off ≤ 65535)
        (hi : i < ctx.module.kind_count s),
      ∃ ctx2, set_index ctx s i d (ctx.module.kind_count d)
          (attempted_index (ctx.module.kind_count d) off) =
        Except.ok (ctx2, some ⟨s, i, VMStaticViolation.IndexOutOfBounds d
          (ctx.module.kind_count d) (ctx.module.kind_count d + off)⟩) ∧
        read_single_ref ctx2.module s d i = some (ctx.module.kind_count d + off)) ∧
    (∀ (ctx : ApplyOutOfBoundsContext) (i off sh : Nat)
        (hno : ctx.module.kind_count .StructHandle + off ≤ 65535)
        (htok : ctx.module.type_signatures.get? (ctx.type_sig_structs.getD i 0) =
          some (.Struct sh)),
      ∃ ctx2, set_index ctx .TypeSignature i .StructHandle
          (ctx.module.kind_count .StructHandle)
          (attempted_index (ctx.module.kind_count .StructHandle) off) =
        Except.ok (ctx2, some ⟨.TypeSignature, ctx.type_sig_structs.getD i 0,
          VMStaticViolation.IndexOutOfBounds .StructHandle
            (ctx.module.kind_count .StructHandle)
            (ctx.module.kind_count .StructHandle + off)⟩) ∧
        ctx2.module.type_signatures.get? (ctx.type_sig_structs.getD i 0) =
          some (.Struct (ctx.module.kind_count .StructHandle + off))) ∧
    (∀ (ctx : ApplyOutOfBoundsContext) (i off j p : Nat) (fs : FunctionSignature)
        (sh : Nat)
        (hno : ctx.module.kind_count .StructHandle + off ≤ 65535),
      (ctx.function_sig_structs.getD i (.ReturnType 0 0) = .ReturnType j p →
        ctx.module.function_signatures.get? j = some fs →
        fs.return_types.get? p = some (.Struct sh) →
        ∃ ctx2, set_index ctx .FunctionSignature i .StructHandle
            (ctx.module.kind_count .StructHandle)
            (attempted_index (ctx.module.kind_count .StructHandle) off) =
          Except.ok (ctx2, some ⟨.FunctionSignature, j,
            VMStaticViolation.IndexOutOfBounds .StructHandle
              (ctx.module.kind_count .StructHandle)
              (ctx.module.kind_count .StructHandle + off)⟩) ∧
          ∃ fs2, ctx2.module.function_signatures.get? j = some fs2 ∧
            fs2.return_types.get? p =
              some (.Struct (ctx.module.kind_count .StructHandle + off))) ∧
      (ctx.function_sig_structs.getD i (.ReturnType 0 0) = .ArgType j p →
        ctx.module.function_signatures.get? j = some fs →
        fs.arg_types.get? p = some (.Struct sh) →
        ∃ ctx2, set_index ctx .FunctionSignature i .StructHandle
            (ctx.module.kind_count .StructHandle)
            (attempted_index (ctx.module.kind_count .StructHandle) off) =
          Except.ok (ctx2, some ⟨.FunctionSignature, j,
            VMStaticViolation.IndexOutOfBounds .StructHandle
              (ctx.module.kind_count .StructHandle)
              (ctx.module.kind_count .StructHandle + off)⟩) ∧
          ∃ fs2, ctx2.module.function_signatures.get? j = some fs2 ∧
            fs2.arg_types.get? p =
              some (.Struct (ctx.module.kind_count .StructHandle + off)))) ∧
    (∀ (ctx : ApplyOutOfBoundsContext) (i off j p : Nat)
        (sig : List SignatureToken) (sh : Nat)
        (hno : ctx.module.kind_count .StructHandle + off ≤ 65535)
        (he : ctx.locals_sig_structs.getD i (0, 0) = (j, p))
        (hsig : ctx.module.locals_signatures.get? j = some sig)
        (htok : sig.get? p = some (.Struct sh)),
      ∃ ctx2, set_index ctx .LocalsSignature i .StructHandle
          (ctx.module.kind_count .StructHandle)
          (attempted_index (ctx.module.kind_count .StructHandle) off) =
        Except.ok (ctx2, some ⟨.LocalsSignature, j,
          VMStaticViolation.IndexOutOfBounds .StructHandle
            (ctx.module.kind_count .StructHandle)
            (ctx.module.kind_count .StructHandle + off)⟩) ∧
        ∃ sig2, ctx2.module.locals_signatures.get? j = some sig2 ∧
          sig2.get? p =
            some (.Struct (ctx.module.kind_count .StructHandle + off))) := by
  refine ⟨?_, ?_, ?_, ?_, ?_⟩
  · intro dst_count off hno
    have hatt : attempted_index dst_count off = dst_count + off :=
      Nat.mod_eq_of_lt (by omega)
    exact ⟨hatt, by rw [hatt]; exact Nat.le_add_right _ _⟩
  · intro ctx s d i off hpair hno hi
    have hatt : attempted_index (ctx.module.kind_count d) off =
        ctx.module.kind_count d + off := Nat.mod_eq_of_lt (by omega)
    rw [hatt]
    fin_cases hpair
    all_goals refine ⟨_, rfl, ?_⟩
    all_goals
      simp [read_single_ref, List.get?_eq_getElem?, List.getElem?_modify_eq,
        List.getElem?_eq_getElem hi]
    all_goals exact ⟨_, List.getElem?_eq_getElem hi⟩
  · intro ctx i off sh hno htok
    have hatt : attempted_index (ctx.module.kind_count .StructHandle) off =
        ctx.module.kind_count .StructHandle + off := Nat.mod_eq_of_lt (by omega)
    rw [hatt]
    refine ⟨_, rfl, ?_⟩
    dsimp only
    rw [get?_modify_self _ _ _ _ htok]
    rfl
  · intro ctx i off j p fs sh hno
    have hatt : attempted_index (ctx.module.kind_count .StructHandle) off =
        ctx.module.kind_count .StructHandle + off := Nat.mod_eq_of_lt (by omega)
    constructor
    all_goals intro heq hfs htok
    all_goals rw [hatt]
    all_goals simp only [set_index]
    all_goals rw [heq]
    all_goals refine ⟨_, rfl, ?_⟩
    all_goals dsimp only
    all_goals refine ⟨_, get?_modify_self _ _ _ _ hfs, ?_⟩
    all_goals dsimp only
    all_goals rw [get?_modify_self _ _ _ _ htok]
    all_goals rfl
  · intro ctx i off j p sig sh hno he hsig htok
    have hatt : attempted_index (ctx.module.kind_count .StructHandle) off =
        ctx.module.kind_count .StructHandle + off := Nat.mod_eq_of_lt (by omega)
    rw [hatt]
    simp only [set_index]
    rw [he]
    refine ⟨_, rfl, ?_⟩
    dsimp only
    refine ⟨_, get?_modify_self _ _ _ _ hsig, ?_⟩
    rw [get?_modify_self _ _ _ _ htok]
    rfl

/-- Witness for C8 across all four shapes: a single-reference write with
destination count 2 and offset 5 (attempted index exactly 7), and the three
embedded-reference writes on the signature module with destination count 1
and offset 5 (attempted index exactly 6, written into the cached token and
reported verbatim). -/
theorem C8_exact_out_of_bounds_value_witness :
    (attempted_index 2 5 = 2 + 5 ∧ 2 ≤ attempted_index 2 5) ∧
    (∃ ctx2, set_index (ApplyOutOfBoundsContext.new sample_module_single_ref [])
        .ModuleHandle 0 .AddressPool 2 (attempted_index 2 5) =
      Except.ok (ctx2, some ⟨.ModuleHandle, 0,
        VMStaticViolation.IndexOutOfBounds .AddressPool 2 (2 + 5)⟩) ∧
      read_single_ref ctx2.module .ModuleHandle .AddressPool 0 = some (2 + 5)) ∧
    (∃ ctx2, set_index (ApplyOutOfBoundsContext.new sample_module_sigs [])
        .TypeSignature 0 .StructHandle 1 (attempted_index 1 5) =
      Except.ok (ctx2, some ⟨.TypeSignature, 1,
        VMStaticViolation.IndexOutOfBounds .StructHandle 1 (1 + 5)⟩) ∧
      ctx2.module.type_signatures.get? 1 = some (.Struct (1 + 5))) ∧
    (∃ ctx2, set_index (ApplyOutOfBoundsContext.new sample_module_sigs [])
        .FunctionSignature 0 .StructHandle 1 (attempted_index 1 5) =
      Except.ok (ctx2, some ⟨.FunctionSignature, 1,
        VMStaticViolation.IndexOutOfBounds .StructHandle 1 (1 + 5)⟩) ∧
      ∃ fs2, ctx2.module.function_signatures.get? 1 = some fs2 ∧
        fs2.return_types.get? 2 = some (.Struct (1 + 5))) ∧
    (∃ ctx2, set_index (ApplyOutOfBoundsContext.new sample_module_sigs [])
        .FunctionSignature 1 .StructHandle 1 (attempted_index 1 5) =
      Except.ok (ctx2, some ⟨.FunctionSignature, 0,
        VMStaticViolation.IndexOutOfBounds .StructHandle 1 (1 + 5)⟩) ∧
      ∃ fs2, ctx2.module.function_signatures.get? 0 = some fs2 ∧
        fs2.arg_types.get? 0 = some (.Struct (1 + 5))) ∧
    (∃ ctx2, set_index (ApplyOutOfBoundsContext.new sample_module_sigs [])
        .LocalsSignature 0 .StructHandle 1 (attempted_index 1 5) =
      Except.ok (ctx2, some ⟨.LocalsSignature, 1,
        VMStaticViolation.IndexOutOfBounds .StructHandle 1 (1 + 5)⟩) ∧
      ∃ sig2, ctx2.module.locals_signatures.get? 1 = some sig2 ∧
        sig2.get? 1 = some (.Struct (1 + 5))) :=
  ⟨C8_exact_out_of_bounds_value.1 2 5 (by decide),
    C8_exact_out_of_bounds_value.2.1
      (ApplyOutOfBoundsContext.new sample_module_single_ref [])
      .ModuleHandle .AddressPool 0 5 (by decide) (by decide) (by decide),
    C8_exact_out_of_bounds_value.2.2.1
      (ApplyOutOfBoundsContext.new sample_module_sigs []) 0 5 0 (by decide) rfl,
    (C8_exact_out_of_bounds_value.2.2.2.1
      (ApplyOutOfBoundsContext.new sample_module_sigs []) 0 5 1 2
      ⟨[.Other 0, .Other 0, .Struct 0], []⟩ 0 (by decide)).1 rfl rfl rfl,
    (C8_exact_out_of_bounds_value.2.2.2.1
      (ApplyOutOfBoundsContext.new sample_module_sigs []) 1 5 0 0
      ⟨[], [.Struct 0, .Struct 1]⟩ 0 (by decide)).2 rfl rfl rfl,
    C8_exact_out_of_bounds_value.2.2.2.2
      (ApplyOutOfBoundsContext.new sample_module_sigs []) 0 5 1 1
      [.Other 0, .Struct 0] 0 (by decide) rfl rfl rfl⟩

end Libra
